import Mathlib

/-
Verification of the kanban board core (status / card / builder / aggregate /
parser) of the kantui repository. Rust strings are modelled as lists of
characters; fallible operations return Except with the error messages the
source produces.
-/

/-- Rust String, modelled as a list of characters. -/
abbrev Str := List Char

/-- Status (src/board/status.rs): a two-valued completion marker.
Incomplete is the Default variant. -/
inductive Status where
  | done
  | incomplete
deriving DecidableEq

/-- The Default impl derived for Status: Incomplete carries the default attribute. -/
def Status.defaultValue : Status := .incomplete

/-- Display for Status: Done renders as the letter x, Incomplete as a space. -/
def Status.render : Status → Str
  | .done => "x".data
  | .incomplete => " ".data

/-- TryFrom for Status: only the two one-character encodings succeed;
anything else produces the invalid-status-character message. -/
def Status.tryFrom (s : Str) : Except Str Status :=
  if s = "x".data then .ok .done
  else if s = " ".data then .ok .incomplete
  else .error ("Invalid Status character: ".data ++ s)

/-- Card (src/board/card.rs): column name, status, title, optional date and
time strings. Equality is full structural equality, as derived in the source. -/
structure Card where
  column : Str
  status : Status
  title : Str
  date : Option Str
  time : Option Str
deriving DecidableEq

/-- Card.move_to: unconditionally overwrites the column field. -/
def Card.move_to (c : Card) (to_col : Str) : Card := { c with column := to_col }

/-- Card.rename: a new Card identical in every field except the title. -/
def Card.rename (c : Card) (new_name : Str) : Card := { c with title := new_name }

/-- Card.mut_rename: the consuming variant; overwrites the title and returns self. -/
def Card.mut_rename (c : Card) (new_name : Str) : Card := { c with title := new_name }

/-- Display for Card: the one-line form, with the date suffix present only
when date is set and the time suffix only when time is set. -/
def Card.render (c : Card) : Str :=
  "- [".data ++ c.status.render ++ "] ".data ++ c.title
    ++ ((c.date.map (fun d => " @\x7b".data ++ d ++ "\x7d".data)).getD [])
    ++ ((c.time.map (fun t => " @@\x7b".data ++ t ++ "\x7d".data)).getD [])

/-- CardBuilder (src/board/card.rs): all five fields optional; Default makes
them all absent. -/
structure CardBuilder where
  column : Option Str := none
  status : Option Status := none
  title : Option Str := none
  date : Option Str := none
  time : Option Str := none
deriving DecidableEq

/-- CardBuilder::new — the all-absent default builder. -/
def CardBuilder.new : CardBuilder := {}

/-- Fluent setter for the column field. -/
def CardBuilder.setColumn (b : CardBuilder) (column : Str) : CardBuilder :=
  { b with column := some column }

/-- Fluent setter for the status field. -/
def CardBuilder.setStatus (b : CardBuilder) (status : Status) : CardBuilder :=
  { b with status := some status }

/-- Fluent setter for the title field. -/
def CardBuilder.setTitle (b : CardBuilder) (title : Str) : CardBuilder :=
  { b with title := some title }

/-- Fluent setter for the date field. -/
def CardBuilder.setDate (b : CardBuilder) (date : Str) : CardBuilder :=
  { b with date := some date }

/-- Fluent setter for the time field. -/
def CardBuilder.setTime (b : CardBuilder) (time : Str) : CardBuilder :=
  { b with time := some time }

/-- CardBuilder::build: requires column (checked first) and title, defaults
status to Incomplete, passes date and time through. -/
def CardBuilder.build (b : CardBuilder) : Except Str Card :=
  match b.column with
  | none => .error "Column is required".data
  | some column =>
    let status := b.status.getD Status.defaultValue
    match b.title with
    | none => .error "Title is required".data
    | some title => .ok { column, status, title, date := b.date, time := b.time }

/-- Kanban (src/board/kanban.rs): ordered column names and the card list. -/
structure Kanban where
  columns : List Str := []
  cards : List Card := []
deriving DecidableEq

/-- The derived Default: empty columns and cards. -/
def Kanban.defaultBoard : Kanban := {}

/-- Kanban::new: pre-populated columns, empty card list. -/
def Kanban.new (cols : List Str) : Kanban := { columns := cols, cards := [] }

/-- Kanban::add_column: appends unconditionally and always succeeds. -/
def Kanban.add_column (k : Kanban) (name : Str) : Except Str Kanban :=
  .ok { k with columns := k.columns ++ [name] }

/-- Internal helper has_column: Ok when the name occurs in columns, else the
column-does-not-exist message. -/
def Kanban.has_column (k : Kanban) (column : Str) : Except Str Unit :=
  if column ∈ k.columns then .ok () else .error "Column does not exist".data

/-- Kanban::add_card: checks the owning column exists, then appends a clone
of the card. -/
def Kanban.add_card (k : Kanban) (card : Card) : Except Str Kanban :=
  match k.has_column card.column with
  | .error e => .error e
  | .ok _ => .ok { k with cards := k.cards ++ [card] }

/-- Kanban::move_card: checks the target column exists, then maps over the
card list, relocating every card structurally equal to the given card. -/
def Kanban.move_card (k : Kanban) (to_col : Str) (card : Card) : Except Str Kanban :=
  match k.has_column to_col with
  | .error e => .error e
  | .ok _ =>
    .ok { k with cards := k.cards.map (fun c => if c = card then c.move_to to_col else c) }

/-
The grammar file kanban.pest is referenced by the source but absent from the
repository sources, so the lexical layer below is modelled from the spec
(sections 4.3 and 6). The fold that turns grammar matches into a Kanban
(Kanban::parse in src/board/kanban.rs) is translated from the source.
-/

/-- The fields the grammar extracts from one card line: the status bracket,
the title text, and the optional date and time annotations. -/
structure CardParts where
  status : Status
  text : Str
  date : Option Str
  time : Option Str
deriving DecidableEq

/-- Modelled from the spec: kanban.pest is missing. True when the input
begins a date marker, a time marker, or a line break — the points where the
free-form title text of a card line stops. -/
def startsMarker (l : Str) : Bool :=
  ['@', '\x7b'].isPrefixOf l || ['@', '@', '\x7b'].isPrefixOf l || ['\n'].isPrefixOf l

/-- Modelled from the spec: kanban.pest is missing. Splits a card-line
remainder into the title text (everything before the first date or time
marker or line break) and the rest. -/
def scanText : Str → Str × Str
  | [] => ([], [])
  | c :: rest =>
    if startsMarker (c :: rest) then ([], c :: rest)
    else
      let (t, r) := scanText rest
      (c :: t, r)

/-- Modelled from the spec: kanban.pest is missing. Reads annotation content
up to the closing brace; none when the brace never closes. -/
def scanBraced : Str → Option (Str × Str)
  | [] => none
  | c :: rest =>
    if c = '\x7d' then some ([], rest)
    else (scanBraced rest).map (fun p => (c :: p.1, p.2))

/-- Modelled from the spec: kanban.pest is missing. The optional date
annotation of a card line. -/
def parseDateOpt : Str → Except Str (Option Str × Str)
  | '@' :: '\x7b' :: rest =>
    match scanBraced rest with
    | none => .error "grammar: unterminated date annotation".data
    | some (d, r) => .ok (some d, r)
  | r => .ok (none, r)

/-- Modelled from the spec: kanban.pest is missing. The optional time
annotation of a card line. -/
def parseTimeOpt : Str → Except Str (Option Str × Str)
  | '@' :: '@' :: '\x7b' :: rest =>
    match scanBraced rest with
    | none => .error "grammar: unterminated time annotation".data
    | some (t, r) => .ok (some t, r)
  | r => .ok (none, r)

/-- Modelled from the spec: kanban.pest is missing. The card production:
a dash-bracket prefix, one status character, the closing bracket and space,
free-form title text, then an optional date and an optional time annotation,
to the end of the line. -/
def tokenizeCardLine (line : Str) : Except Str CardParts :=
  match line with
  | '-' :: ' ' :: '[' :: sc :: ']' :: ' ' :: rest =>
    match Status.tryFrom [sc] with
    | .error e => .error e
    | .ok status =>
      let (text, r1) := scanText rest
      match parseDateOpt r1 with
      | .error e => .error e
      | .ok (date, r2) =>
        match parseTimeOpt r2 with
        | .error e => .error e
        | .ok (time, r3) =>
          if r3 = [] then .ok { status, text, date, time }
          else .error "grammar: trailing input after card".data
  | _ => .error "grammar: not a card line".data

/-- One structural grammar match of the document: a column heading or a card. -/
inductive DocToken where
  | columnHeading (name : Str)
  | card (parts : CardParts)
deriving DecidableEq

/-- Modelled from the spec: trims surrounding whitespace from a heading name. -/
def trimStr (l : Str) : Str :=
  ((l.dropWhile Char.isWhitespace).reverse.dropWhile Char.isWhitespace).reverse

/-- Modelled from the spec: kanban.pest is missing. Turns the document lines
into the token stream: headings and card lines are matched, a trailing
percent-percent block ends tokenization, all other lines are skipped. -/
def tokenizeLines : List Str → Except Str (List DocToken)
  | [] => .ok []
  | line :: rest =>
    if "%%".data.isPrefixOf line then .ok []
    else if "## ".data.isPrefixOf line then
      (tokenizeLines rest).map (fun ts => .columnHeading (trimStr (line.drop 3)) :: ts)
    else if "- [".data.isPrefixOf line then
      match tokenizeCardLine line with
      | .error e => .error e
      | .ok p => (tokenizeLines rest).map (fun ts => .card p :: ts)
    else tokenizeLines rest

/-- Modelled from the spec: kanban.pest is missing. Drops an optional leading
frontmatter block delimited by lines of three dashes. -/
def stripFrontmatter (lines : List Str) : List Str :=
  match lines with
  | [] => []
  | l :: rest =>
    if l = "---".data then
      match rest.dropWhile (fun x => decide (x ≠ "---".data)) with
      | [] => []
      | _ :: after => after
    else l :: rest

/-- The card branch of the fold in Kanban::parse: builds a Card through
CardBuilder from the current column, the extracted text and status, and the
date when one was matched. The time annotation has no branch in the source
loop and is never consulted. -/
def buildFromParts (current_column : Str) (p : CardParts) : Except Str Card :=
  let b := ((CardBuilder.new.setColumn current_column).setTitle p.text).setStatus p.status
  let b := match p.date with
           | some d => b.setDate d
           | none => b
  b.build

/-- The fold of Kanban::parse over the grammar matches, carrying the current
column (initially the empty string, as String::new in the source). -/
def Kanban.processTokens : Kanban → Str → List DocToken → Except Str Kanban
  | k, _, [] => .ok k
  | k, _, .columnHeading name :: ts =>
    match k.add_column name with
    | .error e => .error e
    | .ok kk => Kanban.processTokens kk name ts
  | k, col, .card p :: ts =>
    match buildFromParts col p with
    | .error e => .error e
    | .ok card =>
      match k.add_card card with
      | .error e => .error e
      | .ok kk => Kanban.processTokens kk col ts

/-- Kanban::parse: grammar pass over the text, then the fold, starting from
the default board and the empty current column. -/
def Kanban.parse (input : Str) : Except Str Kanban :=
  match tokenizeLines (stripFrontmatter (input.splitOn '\n')) with
  | .error e => .error e
  | .ok ts => Kanban.processTokens {} [] ts

/-- Parsing the render output of a card as a standalone card line, with a
known current column supplied: the grammar card production followed by the
card branch of the parse fold. -/
def parseCardLine (current_column : Str) (line : Str) : Except Str Card :=
  match tokenizeCardLine line with
  | .error e => .error e
  | .ok p => buildFromParts current_column p

/-- True when some suffix of the string begins a date marker, a time marker,
or a line break: the title text of a rendered card survives the grammar pass
unchanged exactly when this is false. -/
def hasMarker : Str → Bool
  | [] => false
  | c :: rest => startsMarker (c :: rest) || hasMarker rest

/-- A concrete card used by witness instantiations. -/
def cardA : Card :=
  { column := "A".data, status := .incomplete, title := "a".data, date := none, time := none }

/-- A concrete two-column board used by witness instantiations. -/
def boardAB : Kanban := { columns := ["A".data, "B".data], cards := [cardA] }

/-- A concrete card carrying a time annotation, for the round-trip counterexample. -/
def cardTime : Card :=
  { column := "C".data, status := .incomplete, title := "T".data,
    date := none, time := some "10:00".data }

/-- Mapping a function that fixes every member of a list leaves the list unchanged. -/
theorem list_map_id_of_eq {α : Type} (f : α → α) (l : List α)
    (h : ∀ a ∈ l, f a = a) : l.map f = l := by
  induction l with
  | nil => rfl
  | cons x xs ih =>
    simp only [List.map_cons]
    rw [h x (by simp), ih (fun a ha => h a (by simp [ha]))]

/-- C7: for every Status value, parsing the single-character rendering of the
status yields the same status back. -/
theorem status_roundtrip (s : Status) : Status.tryFrom s.render = .ok s := by
  cases s <;> rfl

/-- C8: status parsing succeeds exactly on the one-character strings x and
space, and any other input fails with the invalid-status-character message
carrying the offending input. -/
theorem status_tryFrom_spec (s : Str) :
    (s = "x".data → Status.tryFrom s = .ok .done) ∧
    (s = " ".data → Status.tryFrom s = .ok .incomplete) ∧
    (s ≠ "x".data → s ≠ " ".data →
      Status.tryFrom s = .error ("Invalid Status character: ".data ++ s)) := by
  refine ⟨?_, ?_, ?_⟩
  · rintro rfl; rfl
  · rintro rfl; rfl
  · intro h1 h2
    simp [Status.tryFrom, h1, h2]

/-- Witness for C8 at the concrete rejected input q. -/
theorem status_tryFrom_spec_witness :
    Status.tryFrom "q".data = .error ("Invalid Status character: ".data ++ "q".data) :=
  (status_tryFrom_spec "q".data).2.2 (by decide) (by decide)

/-- C9: rename returns a card equal to the original in column, status, date
and time, with the new title; the consuming variant produces the same card.
The original is a value and is left untouched. -/
theorem rename_spec (c : Card) (t : Str) :
    (c.rename t).column = c.column ∧ (c.rename t).status = c.status ∧
    (c.rename t).title = t ∧ (c.rename t).date = c.date ∧
    (c.rename t).time = c.time ∧ c.mut_rename t = c.rename t :=
  ⟨rfl, rfl, rfl, rfl, rfl, rfl⟩

/-- C6: render produces the dash-bracket-status-bracket-title line, with the
date suffix exactly when date is present and the time suffix exactly when
time is present, each preceded by one space. -/
theorem render_spec (c : Card) :
    (c.date = none → c.time = none →
      c.render = "- [".data ++ c.status.render ++ "] ".data ++ c.title) ∧
    (∀ d, c.date = some d → c.time = none →
      c.render = "- [".data ++ c.status.render ++ "] ".data ++ c.title ++
        (" @\x7b".data ++ d ++ "\x7d".data)) ∧
    (∀ t, c.date = none → c.time = some t →
      c.render = "- [".data ++ c.status.render ++ "] ".data ++ c.title ++
        (" @@\x7b".data ++ t ++ "\x7d".data)) ∧
    (∀ d t, c.date = some d → c.time = some t →
      c.render = "- [".data ++ c.status.render ++ "] ".data ++ c.title ++
        (" @\x7b".data ++ d ++ "\x7d".data) ++ (" @@\x7b".data ++ t ++ "\x7d".data)) := by
  refine ⟨?_, ?_, ?_, ?_⟩
  · intro hd ht; simp [Card.render, hd, ht]
  · intro d hd ht; simp [Card.render, hd, ht, List.append_assoc]
  · intro t hd ht; simp [Card.render, hd, ht, List.append_assoc]
  · intro d t hd ht; simp [Card.render, hd, ht, List.append_assoc]

/-- Witness for C6 at a concrete card carrying both annotations. -/
theorem render_spec_witness :
    ({ column := "C".data, status := .done, title := "T".data,
       date := some "2024-01-15".data, time := some "10:00".data : Card }).render =
      "- [".data ++ Status.done.render ++ "] ".data ++ "T".data ++
        (" @\x7b".data ++ "2024-01-15".data ++ "\x7d".data) ++
        (" @@\x7b".data ++ "10:00".data ++ "\x7d".data) :=
  (render_spec _).2.2.2 "2024-01-15".data "10:00".data rfl rfl

/-- C5: build fails on a missing column (checked first), then on a missing
title; otherwise it returns the card with status defaulted to Incomplete
when unset and the optional date and time passed through unchanged. -/
theorem build_spec (b : CardBuilder) :
    (b.column = none → b.build = .error "Column is required".data) ∧
    (∀ cl, b.column = some cl → b.title = none →
      b.build = .error "Title is required".data) ∧
    (∀ cl t, b.column = some cl → b.title = some t →
      b.build = .ok { column := cl, status := b.status.getD .incomplete, title := t,
                      date := b.date, time := b.time }) := by
  refine ⟨?_, ?_, ?_⟩
  · intro h; simp [CardBuilder.build, h]
  · intro cl h ht; simp [CardBuilder.build, h, ht]
  · intro cl t h ht; simp [CardBuilder.build, h, ht, Status.defaultValue]

/-- Witness for C5: the three build outcomes at concrete builders. -/
theorem build_spec_witness :
    (CardBuilder.new.setTitle "T".data).build = .error "Column is required".data ∧
    (CardBuilder.new.setColumn "C".data).build = .error "Title is required".data ∧
    ((CardBuilder.new.setColumn "C".data).setTitle "T".data).build =
      .ok { column := "C".data, status := .incomplete, title := "T".data,
            date := none, time := none } := by
  refine ⟨(build_spec _).1 rfl, (build_spec _).2.1 "C".data rfl rfl, ?_⟩
  have h := (build_spec ((CardBuilder.new.setColumn "C".data).setTitle "T".data)).2.2
    "C".data "T".data rfl rfl
  simpa using h

/-- C3: add_card fails with the column-not-found error exactly when the
card's column is absent from the column list; on failure no board is
produced, and on success the card is appended unchanged at the end with the
column list untouched. -/
theorem add_card_spec (k : Kanban) (card : Card) :
    (card.column ∉ k.columns ↔ k.add_card card = .error "Column does not exist".data) ∧
    (card.column ∈ k.columns →
      k.add_card card = .ok { columns := k.columns, cards := k.cards ++ [card] }) := by
  by_cases hm : card.column ∈ k.columns <;>
    simp [Kanban.add_card, Kanban.has_column, hm]

/-- Witness for C3: a successful append and a rejected card. -/
theorem add_card_spec_witness :
    (Kanban.new ["C".data]).add_card
        { column := "C".data, status := .incomplete, title := "T".data,
          date := none, time := none } =
      .ok { columns := ["C".data],
            cards := [{ column := "C".data, status := .incomplete, title := "T".data,
                        date := none, time := none }] } ∧
    (Kanban.new ["D".data]).add_card
        { column := "C".data, status := .incomplete, title := "T".data,
          date := none, time := none } =
      .error "Column does not exist".data := by
  constructor
  · have h := (add_card_spec (Kanban.new ["C".data])
      { column := "C".data, status := .incomplete, title := "T".data,
        date := none, time := none }).2 (by decide)
    simpa [Kanban.new] using h
  · exact ((add_card_spec (Kanban.new ["D".data])
      { column := "C".data, status := .incomplete, title := "T".data,
        date := none, time := none }).1).mp (by decide)

/-- C1: with an existing target column, move_card succeeds; the column list
and the card count are untouched, every card structurally equal to the given
card has its column set to the target, every other card is unchanged, and
when nothing matches the card list is identical. -/
theorem move_card_spec (k : Kanban) (to_col : Str) (card : Card)
    (h : to_col ∈ k.columns) :
    ∃ kk, k.move_card to_col card = .ok kk ∧
      kk.columns = k.columns ∧
      kk.cards.length = k.cards.length ∧
      (∀ i, (hi : i < k.cards.length) → (hi2 : i < kk.cards.length) →
        (k.cards[i] = card → kk.cards[i] = { card with column := to_col }) ∧
        (k.cards[i] ≠ card → kk.cards[i] = k.cards[i])) ∧
      ((∀ c ∈ k.cards, c ≠ card) → kk.cards = k.cards) := by
  refine ⟨{ k with cards := k.cards.map (fun c => if c = card then c.move_to to_col else c) },
    ?_, rfl, by simp, ?_, ?_⟩
  · simp [Kanban.move_card, Kanban.has_column, h]
  · intro i hi hi2
    constructor
    · intro hc
      simp [List.getElem_map, hc, Card.move_to]
    · intro hc
      simp [List.getElem_map, hc]
  · intro hall
    exact list_map_id_of_eq _ _ (fun c hc => if_neg (hall c hc))

/-- Witness for C1: moving a concrete card on a concrete two-column board. -/
theorem move_card_spec_witness :
    ∃ kk, boardAB.move_card "B".data cardA = .ok kk ∧
      kk.columns = boardAB.columns ∧
      kk.cards.length = boardAB.cards.length ∧
      (∀ i, (hi : i < boardAB.cards.length) → (hi2 : i < kk.cards.length) →
        (boardAB.cards[i] = cardA → kk.cards[i] = { cardA with column := "B".data }) ∧
        (boardAB.cards[i] ≠ cardA → kk.cards[i] = boardAB.cards[i])) ∧
      ((∀ c ∈ boardAB.cards, c ≠ cardA) → kk.cards = boardAB.cards) :=
  move_card_spec boardAB "B".data cardA (by decide)

/-- buildFromParts always succeeds: the builder receives a column and a
title, the matched status, the date when present, and never a time. -/
theorem buildFromParts_eq (col : Str) (p : CardParts) :
    buildFromParts col p =
      .ok { column := col, status := p.status, title := p.text,
            date := p.date, time := none } := by
  cases hp : p.date with
  | none =>
    simp [buildFromParts, hp, CardBuilder.build, CardBuilder.new, CardBuilder.setColumn,
      CardBuilder.setTitle, CardBuilder.setStatus, Status.defaultValue]
  | some d =>
    simp [buildFromParts, hp, CardBuilder.build, CardBuilder.new, CardBuilder.setColumn,
      CardBuilder.setTitle, CardBuilder.setStatus, CardBuilder.setDate, Status.defaultValue]

/-- A string free of markers is consumed whole by the title scan. -/
theorem scanText_total (l : Str) (h : hasMarker l = false) : scanText l = (l, []) := by
  induction l with
  | nil => rfl
  | cons c rest ih =>
    simp only [hasMarker, Bool.or_eq_false_iff] at h
    simp [scanText, h.1, ih h.2]

/-- The card production on a well-shaped line whose text is free of markers:
the full text becomes the title and no annotations are matched. -/
theorem tokenizeCardLine_clean (sc : Char) (st : Status) (title : Str)
    (hsc : Status.tryFrom [sc] = .ok st) (hm : hasMarker title = false) :
    tokenizeCardLine ('-' :: ' ' :: '[' :: sc :: ']' :: ' ' :: title) =
      .ok { status := st, text := title, date := none, time := none } := by
  simp only [tokenizeCardLine, hsc, scanText_total title hm]
  rfl

/-- C2 counterexample: cardTime is produced by the builder, yet re-parsing
its rendered line yields a card whose title gained the space that separated
it from the time marker and whose time annotation was dropped. -/
theorem roundtrip_counterexample :
    (((CardBuilder.new.setColumn "C".data).setTitle "T".data).setTime "10:00".data).build =
      .ok cardTime ∧
    ∃ p, parseCardLine "C".data cardTime.render = .ok p ∧
      p.title ≠ cardTime.title ∧ p.time ≠ cardTime.time := by
  refine ⟨rfl, ?_⟩
  refine ⟨{ column := "C".data, status := .incomplete, title := "T ".data, date := none, time := none }, ?_, by decide, by decide⟩
  rfl

/-- C2 amended: for a builder-constructed card with no date, no time, and a
title free of annotation markers and line breaks, re-parsing the rendered
line with a known current column restores status, title, date and time. -/
theorem roundtrip_amended (col : Str) (c : Card)
    (hd : c.date = none) (ht : c.time = none) (hm : hasMarker c.title = false) :
    ∃ p, parseCardLine col c.render = .ok p ∧
      p.status = c.status ∧ p.title = c.title ∧ p.date = c.date ∧ p.time = c.time := by
  refine ⟨{ column := col, status := c.status, title := c.title, date := none, time := none },
    ?_, rfl, rfl, hd.symm, ht.symm⟩
  cases hcs : c.status with
  | done =>
    have hr : c.render = '-' :: ' ' :: '[' :: 'x' :: ']' :: ' ' :: c.title := by
      simp [Card.render, hd, ht, hcs, Status.render]
    rw [hr]
    simp only [parseCardLine, tokenizeCardLine_clean 'x' Status.done c.title rfl hm]
    exact buildFromParts_eq col _
  | incomplete =>
    have hr : c.render = '-' :: ' ' :: '[' :: ' ' :: ']' :: ' ' :: c.title := by
      simp [Card.render, hd, ht, hcs, Status.render]
    rw [hr]
    simp only [parseCardLine, tokenizeCardLine_clean ' ' Status.incomplete c.title rfl hm]
    exact buildFromParts_eq col _

/-- Witness for the amended C2 at a concrete marker-free card. -/
theorem roundtrip_amended_witness :
    ∃ p, parseCardLine "C".data
        ({ column := "C".data, status := .done, title := "hello".data,
           date := none, time := none : Card }).render = .ok p ∧
      p.status = Status.done ∧ p.title = "hello".data ∧
      p.date = (none : Option Str) ∧ p.time = (none : Option Str) :=
  roundtrip_amended "C".data
    { column := "C".data, status := .done, title := "hello".data,
      date := none, time := none } rfl rfl (by decide)

/-- C4 counterexample: the orphan card document does fail, but the error is
the column-does-not-exist message raised by add_card against the empty
initial current column, not a dedicated missing-column-before-card error —
no such error exists anywhere in the code. -/
theorem orphan_parse_counterexample :
    Kanban.parse "- [ ] orphan card".data = .error "Column does not exist".data := by
  rfl

/-- C4 amended: parsing the orphan card document fails and returns no board;
the error it fails with is exactly the one add_card raises when a card
references an absent column. -/
theorem orphan_parse_amended :
    ∃ e, Kanban.parse "- [ ] orphan card".data = .error e ∧
      e = "Column does not exist".data ∧
      Kanban.defaultBoard.add_card
        { column := "orphan card".data, status := .incomplete,
          title := "orphan card".data, date := none, time := none } = .error e :=
  ⟨"Column does not exist".data, rfl, rfl, rfl⟩

/-- A successful add_card leaves the columns unchanged and appends the card. -/
theorem add_card_ok (k : Kanban) (card : Card) (kk : Kanban)
    (h : k.add_card card = .ok kk) :
    kk.columns = k.columns ∧ kk.cards = k.cards ++ [card] := by
  by_cases hm : card.column ∈ k.columns
  · simp only [Kanban.add_card, Kanban.has_column, if_pos hm, Except.ok.injEq] at h
    subst h
    exact ⟨rfl, rfl⟩
  · simp [Kanban.add_card, Kanban.has_column, hm] at h

/-- The parse fold preserves the absence of time annotations: every card it
appends comes from buildFromParts, which never sets time. -/
theorem processTokens_time (ts : List DocToken) :
    ∀ (k : Kanban) (col : Str) (kk : Kanban),
      (∀ c ∈ k.cards, c.time = none) →
      Kanban.processTokens k col ts = .ok kk →
      ∀ c ∈ kk.cards, c.time = none := by
  induction ts with
  | nil =>
    intro k col kk hk h
    simp only [Kanban.processTokens, Except.ok.injEq] at h
    subst h
    exact hk
  | cons t ts ih =>
    intro k col kk hk h
    cases t with
    | columnHeading name =>
      simp only [Kanban.processTokens, Kanban.add_column] at h
      refine ih _ _ _ ?_ h
      exact fun c hc => hk c hc
    | card p =>
      simp only [Kanban.processTokens, buildFromParts_eq] at h
      cases hac : k.add_card ⟨col, p.status, p.text, p.date, none⟩ with
      | error e => simp [hac] at h
      | ok k2 =>
        simp only [hac] at h
        have hk2 := add_card_ok _ _ _ hac
        refine ih _ _ _ ?_ h
        intro c hc
        rw [hk2.2] at hc
        rcases List.mem_append.mp hc with h1 | h2
        · exact hk c h1
        · have hc2 : c = (⟨col, p.status, p.text, p.date, none⟩ : Card) := by
            simpa using h2
          rw [hc2]

/-- C10: every card of a board produced by a successful parse carries no time
annotation — the card branch of the fold extracts only status, title and
date, and has no branch for the time production. -/
theorem parse_time_none (input : Str) (k : Kanban)
    (h : Kanban.parse input = .ok k) :
    ∀ c ∈ k.cards, c.time = none := by
  simp only [Kanban.parse] at h
  cases htk : tokenizeLines (stripFrontmatter (input.splitOn '\n')) with
  | error e => simp [htk] at h
  | ok ts =>
    simp only [htk] at h
    exact processTokens_time ts {} [] k (by simp) h

/-- Witness for C10 at a concrete one-column one-card document. -/
theorem parse_time_none_witness :
    ({ column := "A".data, status := .incomplete, title := "t".data,
       date := none, time := none : Card }).time = none :=
  parse_time_none "## A\n- [ ] t".data
    { columns := ["A".data],
      cards := [{ column := "A".data, status := .incomplete, title := "t".data,
                  date := none, time := none }] }
    rfl _ (by simp)
